import Mathlib

/-! # Access-layer codec of Ero-Bluetooth-Mesh, embedded for verification

Shallow embedding of `bt_mesh/access.py`: opcodes, model identifiers, access
payloads and access messages, together with theorems settling the documented
properties of the codec.

Conventions of the embedding:

* Python `bytes` values are `List Nat`, each element below 256.
* A Python function that can raise is embedded as `Except PyErr _`; each
  exception class raised by the module has a `PyErr` constructor.
* `Opcode` declares `__slots__ = ("opcode", "company_id")`, and its `__init__`
  assigns these slots only on some paths (it never calls the base class
  initializer).  Reading a never-assigned slot raises `AttributeError` in
  Python, so each slot is embedded with an extra `Option` layer whose `none`
  stands for "never assigned".  In this module the `company_id` slot is only
  ever assigned an integer, never `None`; the embedding still distinguishes an
  unassigned slot (`none`), an assigned `None` (`some none`) and an assigned
  integer (`some (some v)`), mirroring the `is not None` test in
  `Opcode.__len__`.
* `struct.pack` / `struct.unpack` are embedded with their size and range
  checks; `"<H"` is little-endian 16-bit, `"<B"` a single byte.  `unpack`
  returns a tuple in Python; where the source forgets to project the tuple the
  embedding keeps track of that through the `CompanyArg` argument type.
* The source imports `Address`, `TTL`, key indices and `ByteSerializable` from
  a `mesh` module that is not part of the sources; the few facts needed about
  them are modelled from the spec and marked as such in doc comments.
-/

inductive PyErr where
  | valueError (msg : String)
  | typeError
  | attributeError
  | assertionError
  | overflowError (msg : String)
  | structError
  | notImplementedError
  | indexError
  deriving DecidableEq, Repr

/-- Python `b[i]` on a bytes object: `IndexError` when out of range. -/
def listGet (b : List Nat) (i : Nat) : Except PyErr Nat :=
  match b.get? i with
  | some v => Except.ok v
  | none => Except.error PyErr.indexError

/-- `struct.pack("<B", v)`: one byte, `struct.error` outside 0..255. -/
def packB (v : Nat) : Except PyErr (List Nat) :=
  if v ≤ 0xFF then Except.ok [v] else Except.error PyErr.structError

/-- `struct.pack("<H", v)`: 16-bit little-endian, `struct.error` outside 0..65535. -/
def packHle (v : Nat) : Except PyErr (List Nat) :=
  if v ≤ 0xFFFF then Except.ok [v % 256, v / 256] else Except.error PyErr.structError

/-- `struct.unpack("<H", b)`: requires exactly two bytes, reads little-endian. -/
def unpackHle (b : List Nat) : Except PyErr Nat :=
  match b with
  | [b0, b1] => Except.ok (b0 + 256 * b1)
  | _ => Except.error PyErr.structError

/-- In-memory `Opcode` object: the two `__slots__` entries.  `opcode` is
`none` when the slot was never assigned; `company_id` is `none` when never
assigned, `some none` for an assigned Python `None` (which this module never
produces), `some (some v)` for an assigned integer. -/
structure Opcode where
  opcode : Option Nat
  company_id : Option (Option Nat)
  deriving DecidableEq, Repr

/-- The `company_id` argument of `Opcode.__init__`: `None`, an integer, or the
1-tuple that `struct.unpack` returns (passed unprojected by `from_bytes`). -/
inductive CompanyArg where
  | pyNone
  | pyInt (v : Nat)
  | pyTuple (v : Nat)
  deriving DecidableEq, Repr

/-- `Opcode.__init__`.  Without a company id: values below 0x7F and values
strictly between 0x7F and 0xC000 are stored, everything else raises
`ValueError`.  With an integer company id: the valid combination stores both
slots, but the invalid combination falls off the end of the method, assigning
neither slot and raising nothing.  With a tuple company id (as passed by
`from_bytes`), the comparison `company_id < 0xFFFF` raises `TypeError`. -/
def Opcode.init (opcode : Nat) (company_id : CompanyArg) : Except PyErr Opcode :=
  match company_id with
  | CompanyArg.pyNone =>
    if opcode < 0b01111111 then
      Except.ok ⟨some opcode, none⟩
    else if 0b01111111 < opcode ∧ opcode < 0b1100000000000000 then
      Except.ok ⟨some opcode, none⟩
    else
      Except.error (PyErr.valueError ("invalid opcode " ++ toString opcode))
  | CompanyArg.pyInt cid =>
    if cid < 0xFFFF ∧ opcode < 64 then
      Except.ok ⟨some opcode, some (some cid)⟩
    else
      Except.ok ⟨none, none⟩
  | CompanyArg.pyTuple _ => Except.error PyErr.typeError

/-- `Opcode.__len__`: reads `self.company_id` (raising `AttributeError` if the
slot was never assigned), returns 3 when it is not `None`, otherwise reads
`self.opcode` and returns 1 below 0x7F and 2 otherwise. -/
def Opcode.len (o : Opcode) : Except PyErr Nat :=
  match o.company_id with
  | none => Except.error PyErr.attributeError
  | some (some _) => Except.ok 3
  | some none =>
    match o.opcode with
    | none => Except.error PyErr.attributeError
    | some v => if v < 0b01111111 then Except.ok 1 else Except.ok 2

/-- `Opcode.as_bytes`: dispatches on `len(self)`; 3-octet form packs
`(opcode | 0xC0, company_id)` with `"<BH"`, 2-octet packs `opcode | 0x8000`
with `"<H"` (little-endian), 1-octet packs the byte with `"<B"`. -/
def Opcode.as_bytes (o : Opcode) : Except PyErr (List Nat) := do
  let opcode_len ← o.len
  if opcode_len = 3 then
    match o.opcode, o.company_id with
    | some op, some (some cid) => do
      let b0 ← packB (op ||| 0xC0)
      let rest ← packHle cid
      pure (b0 ++ rest)
    | _, _ => Except.error PyErr.attributeError
  else if opcode_len = 2 then
    match o.opcode with
    | some op => packHle (op ||| 0x8000)
    | none => Except.error PyErr.attributeError
  else if opcode_len = 1 then
    match o.opcode with
    | some op => packB op
    | none => Except.error PyErr.attributeError
  else
    Except.error PyErr.notImplementedError

/-- `Opcode.from_bytes`: classifies by `b[0] >> 6`, rejects the reserved first
byte 0x7F, computes `opcode = b[0] & 0xC0`, then for the 3-octet class passes
`struct.unpack("<H", b[1:3])` (a tuple) as company id, for the 2-octet class
sets `opcode = (opcode << 8) | b[1]`, and calls the constructor. -/
def Opcode.from_bytes (b : List Nat) : Except PyErr Opcode := do
  let b0 ← listGet b 0
  if b0 >>> 6 < 2 ∧ b0 = 0b01111111 then
    Except.error (PyErr.valueError (toString b0 ++ " RFU"))
  else
    let opcode_size := if b0 >>> 6 < 2 then 1 else b0 >>> 6
    let opcode := b0 &&& 0xC0
    if opcode_size = 3 then do
      let cid ← unpackHle ((b.drop 1).take 2)
      Opcode.init opcode (CompanyArg.pyTuple cid)
    else if opcode_size = 2 then do
      let b1 ← listGet b 1
      Opcode.init ((opcode <<< 8) ||| b1) CompanyArg.pyNone
    else
      Opcode.init opcode CompanyArg.pyNone

/-- Modelled from the spec: `from_bytes_hex` comes from the absent `mesh`
module's `ByteSerializable` and parses a hex string, feeding the bytes to
`from_bytes`.  Since `bytes.hex` and `bytes.fromhex` are mutually inverse, hex
strings are identified with their byte lists. -/
def Opcode.from_bytes_hex (b : List Nat) : Except PyErr Opcode :=
  Opcode.from_bytes b

/-- In-memory `ModelIdentifier`: `model_id` plus optional `company_id`
(both assigned unconditionally by `__init__`). -/
structure ModelIdentifier where
  model_id : Nat
  company_id : Option Nat
  deriving DecidableEq, Repr

/-- `ModelIdentifier.from_bytes`: `cls.STRUCT.unpack(b)` with `STRUCT =
struct.Struct("<HH")` requires exactly four bytes and yields
`(company_id, model_id)` little-endian; any other length raises
`struct.error`.  The constructor is then called as `cls(model_id, company_id)`. -/
def ModelIdentifier.from_bytes (b : List Nat) : Except PyErr ModelIdentifier :=
  match b with
  | [a0, a1, a2, a3] => Except.ok ⟨a2 + 256 * a3, some (a0 + 256 * a1)⟩
  | _ => Except.error PyErr.structError

/-- `AccessPayload.MAX_SIZE`. -/
def AccessPayload.MAX_SIZE : Nat := 380

/-- In-memory `AccessPayload`: opcode object plus parameter bytes. -/
structure AccessPayload where
  opcode : Opcode
  parameters : List Nat
  deriving DecidableEq, Repr

/-- `AccessPayload.__init__`: raises `OverflowError` when the parameters
exceed `MAX_SIZE` (380) bytes, otherwise stores both fields. -/
def AccessPayload.init (opcode : Opcode) (parameters : List Nat) :
    Except PyErr AccessPayload :=
  if parameters.length > AccessPayload.MAX_SIZE then
    Except.error (PyErr.overflowError ("access payload too big"))
  else
    Except.ok ⟨opcode, parameters⟩

/-- `AccessPayload.to_bytes`: `self.opcode.as_bytes() + self.parameters`. -/
def AccessPayload.to_bytes (p : AccessPayload) : Except PyErr (List Nat) := do
  let ob ← p.opcode.as_bytes
  pure (ob ++ p.parameters)

/-- `AccessPayload.from_bytes`: decodes the opcode from the prefix, then
takes `b[len(opcode):]` as parameters. -/
def AccessPayload.from_bytes (b : List Nat) : Except PyErr AccessPayload := do
  let opcode ← Opcode.from_bytes b
  let n ← opcode.len
  AccessPayload.init opcode (b.drop n)

/-- Modelled from the spec: an address carries an underlying numeric value
(the codec treats addresses opaquely; §6 serializes them as integers). -/
structure Address where
  value : Nat
  deriving DecidableEq, Repr

/-- Modelled from the spec: TTL carries its numeric value. -/
structure TTL where
  value : Nat
  deriving DecidableEq, Repr

/-- Modelled from the spec: an application-key index carries its numeric value. -/
structure AppKeyIndex where
  value : Nat
  deriving DecidableEq, Repr

/-- Modelled from the spec: a network-key index carries its numeric value. -/
structure NetKeyIndex where
  value : Nat
  deriving DecidableEq, Repr

/-- In-memory `AccessMessage` with all eleven fields. -/
structure AccessMessage where
  src : Address
  dst : Address
  ttl : TTL
  opcode : Opcode
  payload : List Nat
  appkey_index : Option AppKeyIndex
  netkey_index : NetKeyIndex
  big_mic : Bool
  local_device_key : Bool
  remote_device_key : Bool
  force_segment : Bool
  deriving DecidableEq, Repr

/-- `AccessMessage.__init__`: `assert not (local_device_key and
remote_device_key)` raises `AssertionError`; a device-key flag together with a
present `appkey_index` raises `ValueError`; otherwise every field is stored. -/
def AccessMessage.init (src dst : Address) (ttl : TTL) (opcode : Opcode)
    (payload : List Nat) (appkey_index : Option AppKeyIndex)
    (netkey_index : NetKeyIndex) (big_mic local_device_key remote_device_key
    force_segment : Bool) : Except PyErr AccessMessage :=
  if local_device_key && remote_device_key then
    Except.error PyErr.assertionError
  else if (local_device_key || remote_device_key) && appkey_index.isSome then
    Except.error (PyErr.valueError ("device key True but also given an appkey_index"))
  else
    Except.ok ⟨src, dst, ttl, opcode, payload, appkey_index, netkey_index,
      big_mic, local_device_key, remote_device_key, force_segment⟩

/-- `AccessMessage.device_key`: returns `self.remote_device_key or
self.remote_device_key` — the same flag, twice, exactly as in the source. -/
def AccessMessage.device_key (m : AccessMessage) : Bool :=
  m.remote_device_key || m.remote_device_key

/-- The record produced by `AccessMessage.to_dict` (§6 external
representation).  Hex strings are identified with their byte lists. -/
structure DictValue where
  src : Nat
  dst : Nat
  ttl : Nat
  opcode : List Nat
  payload : List Nat
  netkey_index : Nat
  appkey_index : Option Nat
  big_mic : Bool
  local_device_key : Bool
  remote_device_key : Bool
  force_seg : Bool
  deriving DecidableEq, Repr

/-- `AccessMessage.to_dict`: builds the record; evaluating the `opcode` entry
calls `self.opcode.as_bytes()`, whose exceptions propagate.  The
`appkey_index` entry is the index's value when present, `None` otherwise
(modelled from the spec: a present index object is truthy). -/
def AccessMessage.to_dict (m : AccessMessage) : Except PyErr DictValue := do
  let ob ← m.opcode.as_bytes
  pure ⟨m.src.value, m.dst.value, m.ttl.value, ob, m.payload,
    m.netkey_index.value, m.appkey_index.map (fun a => a.value),
    m.big_mic, m.local_device_key, m.remote_device_key, m.force_segment⟩

/-- `AccessMessage.from_dict`: parses the fields into local variables —
`Opcode.from_bytes_hex` can raise — but the test
`d.get("appkey_index") is int` compares the value with the type object `int`
(never true for an integer value), and the method body ends without a
`return` statement, so on success Python returns `None`, never an
`AccessMessage`. -/
def AccessMessage.from_dict (d : DictValue) : Except PyErr (Option AccessMessage) := do
  let _src : Address := ⟨d.src⟩
  let _dst : Address := ⟨d.dst⟩
  let _ttl : TTL := ⟨d.ttl⟩
  let _opcode ← Opcode.from_bytes_hex d.opcode
  let _payload : List Nat := d.payload
  let _netkey_index : NetKeyIndex := ⟨d.netkey_index⟩
  let _appkey_index : Option AppKeyIndex := none
  pure none

/-- C1: the claimed round-trip `decode(encode(o)) = o` fails on the code.  For
the valid 1-octet opcode 0x02, `as_bytes` raises `AttributeError` (via
`__len__`, which reads the `company_id` slot that `__init__` never assigned),
so it returns no bytes at all; for the vendor opcode (0x10, company 0x0059),
where `as_bytes` does work and returns three bytes, `from_bytes` on those very
bytes raises `TypeError` (the unprojected `struct.unpack` tuple is compared
with an integer in the constructor).  Hence the round-trip holds for no
populated size class, and `length(o) = len(encode(o))` fails as well for
non-vendor opcodes (both sides raise instead of being equal numbers). -/
theorem opcode_roundtrip_broken :
    Opcode.init 2 CompanyArg.pyNone = Except.ok ⟨some 2, none⟩ ∧
    (Opcode.init 2 CompanyArg.pyNone).bind Opcode.as_bytes
      = Except.error PyErr.attributeError ∧
    (Opcode.init 0x10 (CompanyArg.pyInt 0x59)).bind Opcode.as_bytes
      = Except.ok [0xD0, 0x59, 0x00] ∧
    Opcode.from_bytes [0xD0, 0x59, 0x00] = Except.error PyErr.typeError :=
  ⟨rfl, rfl, rfl, rfl⟩

/-- C2: `AccessMessage` construction fails (AssertionError) when both
device-key flags are set; fails (with a validation error) when a device-key
flag is set while `appkey_index` is present; and succeeds with exactly the
given fields when neither condition holds. -/
theorem accessMessage_init_validates (src dst : Address) (ttl : TTL)
    (opc : Opcode) (pl : List Nat) (ak : Option AppKeyIndex) (nk : NetKeyIndex)
    (bm l r fs : Bool) :
    ((l = true ∧ r = true) →
      AccessMessage.init src dst ttl opc pl ak nk bm l r fs
        = Except.error PyErr.assertionError) ∧
    ((l = true ∨ r = true) → ak ≠ none →
      ∃ e, AccessMessage.init src dst ttl opc pl ak nk bm l r fs
        = Except.error e) ∧
    (¬(l = true ∧ r = true) → ¬((l = true ∨ r = true) ∧ ak ≠ none) →
      AccessMessage.init src dst ttl opc pl ak nk bm l r fs
        = Except.ok ⟨src, dst, ttl, opc, pl, ak, nk, bm, l, r, fs⟩) := by
  refine ⟨?_, ?_, ?_⟩
  · rintro ⟨hl, hr⟩
    subst hl; subst hr
    rfl
  · intro h hak
    cases ak with
    | none => exact absurd rfl hak
    | some a =>
      cases l with
      | true =>
        cases r with
        | true => exact ⟨PyErr.assertionError, rfl⟩
        | false =>
          exact ⟨PyErr.valueError ("device key True but also given an appkey_index"), rfl⟩
      | false =>
        cases r with
        | true =>
          exact ⟨PyErr.valueError ("device key True but also given an appkey_index"), rfl⟩
        | false =>
          rcases h with h | h <;> exact absurd h (by simp)
  · intro h1 h2
    cases l with
    | false =>
      cases r with
      | false => rfl
      | true =>
        cases ak with
        | none => rfl
        | some a =>
          exact absurd ⟨Or.inr rfl, fun h => Option.noConfusion h⟩ h2
    | true =>
      cases r with
      | true => exact absurd ⟨rfl, rfl⟩ h1
      | false =>
        cases ak with
        | none => rfl
        | some a =>
          exact absurd ⟨Or.inl rfl, fun h => Option.noConfusion h⟩ h2

/-- Witness for C2 at concrete inputs: both flags set raises AssertionError, a
device-key flag with a present index raises a validation error, and a plain
application-key message is constructed with the given fields. -/
theorem accessMessage_init_validates_witness :
    AccessMessage.init ⟨1⟩ ⟨2⟩ ⟨5⟩ ⟨some 2, none⟩ [] none ⟨0⟩ false true true false
      = Except.error PyErr.assertionError ∧
    (∃ e, AccessMessage.init ⟨1⟩ ⟨2⟩ ⟨5⟩ ⟨some 2, none⟩ [] (some ⟨3⟩) ⟨0⟩ false false true false
      = Except.error e) ∧
    AccessMessage.init ⟨1⟩ ⟨2⟩ ⟨5⟩ ⟨some 2, none⟩ [] (some ⟨3⟩) ⟨0⟩ false false false false
      = Except.ok ⟨⟨1⟩, ⟨2⟩, ⟨5⟩, ⟨some 2, none⟩, [], some ⟨3⟩, ⟨0⟩, false, false, false, false⟩ :=
  ⟨(accessMessage_init_validates ⟨1⟩ ⟨2⟩ ⟨5⟩ ⟨some 2, none⟩ [] none ⟨0⟩ false true true false).1
      ⟨rfl, rfl⟩,
   (accessMessage_init_validates ⟨1⟩ ⟨2⟩ ⟨5⟩ ⟨some 2, none⟩ [] (some ⟨3⟩) ⟨0⟩ false false true false).2.1
      (Or.inr rfl) (fun h => Option.noConfusion h),
   (accessMessage_init_validates ⟨1⟩ ⟨2⟩ ⟨5⟩ ⟨some 2, none⟩ [] (some ⟨3⟩) ⟨0⟩ false false false false).2.2
      (by simp) (by simp)⟩

/-- C3: the external round-trip never yields an `AccessMessage`.  For an
application-key message to the group address 0xC000 with the 1-octet opcode
0x01, `to_dict` already raises `AttributeError` (its `opcode` entry calls
`as_bytes`, which reads the never-assigned `company_id` slot).  For a
device-key message to a unicast address with a vendor opcode, `to_dict`
succeeds but `from_dict` raises `TypeError` inside `Opcode.from_bytes`; and
`from_dict` ends without a `return` statement, so even without the exception
it would return `None`, not an `AccessMessage` equal to the original. -/
theorem accessMessage_external_roundtrip_broken :
    (AccessMessage.init ⟨1⟩ ⟨0xC000⟩ ⟨5⟩ ⟨some 1, none⟩ [0] (some ⟨3⟩) ⟨0⟩
        false false false false).bind AccessMessage.to_dict
      = Except.error PyErr.attributeError ∧
    ((AccessMessage.init ⟨1⟩ ⟨2⟩ ⟨5⟩ ⟨some 0x10, some (some 0x59)⟩ [] none ⟨0⟩
        true true false true).bind AccessMessage.to_dict).bind AccessMessage.from_dict
      = Except.error PyErr.typeError :=
  ⟨rfl, rfl⟩

/-- C4: of the claimed wire encodings, only the 3-octet vendor example holds:
`Opcode(opcode=0x10, company_id=0x0059)` encodes to `D0 59 00`.  Encoding the
1-octet opcode 0x01 does not produce the byte 0x01: `as_bytes` raises
`AttributeError` because `__len__` reads the `company_id` slot that
`__init__` never assigned.  (The 2-octet branch, moreover, packs
`opcode | 0x8000` with the little-endian format `"<H"`, not big-endian, but it
is unreachable for the same slot reason.) -/
theorem opcode_as_bytes_examples :
    (Opcode.init 0x01 CompanyArg.pyNone).bind Opcode.as_bytes
      = Except.error PyErr.attributeError ∧
    (Opcode.init 0x10 (CompanyArg.pyInt 0x59)).bind Opcode.as_bytes
      = Except.ok [0xD0, 0x59, 0x00] ∧
    Opcode.as_bytes ⟨some 0x1234, some none⟩ = Except.ok [0x34, 0x92] :=
  ⟨rfl, rfl, rfl⟩

/-- C5: decoding does not recover the claimed values.  On the 2-octet input
`92 34` the code computes `opcode = ((b0 & 0xC0) << 8) | b1 = 0x8034`,
discarding the low six bits of byte 0 (the claim requires 0x1234); on the
3-octet input `D2 59 00` the company id is the unprojected `struct.unpack`
tuple, and comparing it with an integer in the constructor raises
`TypeError` (the claim requires opcode 0x12 with company id 0x0059). -/
theorem opcode_from_bytes_masks_wrong_bits :
    Opcode.from_bytes [0x92, 0x34] = Except.ok ⟨some 0x8034, none⟩ ∧
    Opcode.from_bytes [0xD2, 0x59, 0x00] = Except.error PyErr.typeError :=
  ⟨rfl, rfl⟩

/-- C6: `length` only ever returns for vendor opcodes (3).  For the 1-octet
opcode 0x05 and for the 2-octet opcode 0x1234, `__len__` raises
`AttributeError` since the `company_id` slot was never assigned, so neither
`length = 1` / `length = 2` nor the 1-byte / 2-byte encodings claimed for
those classes are produced; with a company id, `length` is 3 and the encoding
is exactly 3 bytes. -/
theorem opcode_len_raises_for_non_vendor :
    (Opcode.init 0x05 CompanyArg.pyNone).bind Opcode.len
      = Except.error PyErr.attributeError ∧
    (Opcode.init 0x1234 CompanyArg.pyNone).bind Opcode.len
      = Except.error PyErr.attributeError ∧
    (Opcode.init 0x10 (CompanyArg.pyInt 0x59)).bind Opcode.len = Except.ok 3 ∧
    ((Opcode.init 0x10 (CompanyArg.pyInt 0x59)).bind Opcode.as_bytes).map List.length
      = Except.ok 3 :=
  ⟨rfl, rfl, rfl, rfl⟩

/-- C7: `device_key` returns `remote_device_key or remote_device_key` — the
same flag twice — so for a message constructed with `local_device_key = true`
and `remote_device_key = false` it returns `false`, while the claim requires
`true`. -/
theorem device_key_checks_wrong_flag :
    (AccessMessage.init ⟨1⟩ ⟨2⟩ ⟨5⟩ ⟨some 2, none⟩ [] none ⟨0⟩ false true false false).map
      AccessMessage.device_key = Except.ok false :=
  rfl

set_option maxRecDepth 4000 in
/-- C8: the size bound itself holds — 381 parameter bytes raise
`OverflowError`, 380 are accepted with the given fields — but the 380-byte
payload does not round-trip: `to_bytes` on it raises `AttributeError`
(`opcode.as_bytes` reads the never-assigned `company_id` slot of the 1-octet
opcode 0x01), so encode followed by decode never returns the payload. -/
theorem accessPayload_bound_holds_roundtrip_broken :
    AccessPayload.init ⟨some 1, none⟩ (List.replicate 381 0)
      = Except.error (PyErr.overflowError ("access payload too big")) ∧
    AccessPayload.init ⟨some 1, none⟩ (List.replicate 380 0)
      = Except.ok ⟨⟨some 1, none⟩, List.replicate 380 0⟩ ∧
    AccessPayload.to_bytes ⟨⟨some 1, none⟩, List.replicate 380 0⟩
      = Except.error PyErr.attributeError :=
  ⟨rfl, rfl, rfl⟩

/-- C9: invalid vendor combinations do not raise at construction.  With
`opcode = 64` (≥ 64) and company id 0x0059, and with company id 0xFFFF (just
outside the valid 16-bit range), the company-id branch of `__init__` has no
`else`: the constructor returns normally with neither slot assigned, instead
of raising the claimed `ValueError`.  Only the reserved no-company value 0x7F
does raise `ValueError` as claimed. -/
theorem opcode_invalid_vendor_combo_silent :
    Opcode.init 64 (CompanyArg.pyInt 0x59) = Except.ok ⟨none, none⟩ ∧
    Opcode.init 0x10 (CompanyArg.pyInt 0xFFFF) = Except.ok ⟨none, none⟩ ∧
    Opcode.init 0x7F CompanyArg.pyNone
      = Except.error (PyErr.valueError ("invalid opcode 127")) :=
  ⟨rfl, rfl, rfl⟩

/-- C10: a 2-byte slice is rejected, not decoded as a SIG model:
`from_bytes` always unpacks with the 4-byte struct `"<HH"`, so the 2-byte
input `34 12` raises `struct.error` instead of yielding a SIG model with
model id 0x1234; a 4-byte input is decoded as claimed (company id then model
id, both little-endian). -/
theorem modelIdentifier_decode_two_byte_fails :
    ModelIdentifier.from_bytes [0x34, 0x12] = Except.error PyErr.structError ∧
    ModelIdentifier.from_bytes [0x59, 0x00, 0x34, 0x12]
      = Except.ok ⟨0x1234, some 0x0059⟩ :=
  ⟨rfl, rfl⟩
